import Mathlib

/-!
# Mikrobill console scripts: customer form and profiles page

Shallow embedding of `frontend/js/customer-form.js` and `frontend/js/profiles.js`.

Conventions of the embedding.

* A JSON scalar read from a response (or a form value) is a `JSVal`; a property that is
  missing from its object is `JSVal.undefined`. Numbers are the integer-valued ones
  (`JSVal.num n`), printed in decimal as the language does for safe integers.
* A DOM `select` is the list of its options, a table body is the list of its rows.
  Assigning `innerHTML` a literal template replaces the children by the elements the
  template spells out; text interpolated in a template is taken to be markup-free.
* An `async` function runs as one step. What the network answers is an argument
  (`Fetched`), and what the scripts do to the outside world (requests, console output,
  alerts, confirmation prompts, navigation) is appended to the `trace` of the page.
* `API_BASE` is a page-level constant defined outside these two scripts; it is the
  argument `apiBase`.
-/

namespace Mikrobill

/-! ## Values -/

/-- JSON scalar as the scripts see it; `undefined` stands for a missing property. -/
inductive JSVal where
  | undefined
  | null
  | bool (b : Bool)
  | num (n : Int)
  | str (s : String)
  deriving DecidableEq, Repr

namespace JSVal

/-- ToBoolean of the language: what `if (v)`, `!v`, `v || w` and `v ? a : b` test. -/
def truthy : JSVal → Bool
  | undefined => false
  | null => false
  | bool b => b
  | num n => n != 0
  | str s => s != ""

/-- ToString of the language: what a template literal, `+` with a string, and the
assignment to a DOM string property apply to a value. -/
def toStr : JSVal → String
  | undefined => "undefined"
  | null => "null"
  | bool true => "true"
  | bool false => "false"
  | num n => toString n
  | str s => s

/-- The operator `a || b`. -/
def or (a b : JSVal) : JSVal :=
  if a.truthy then a else b

/-- The method call `v.toLocaleString()` on a truthy value: a number goes through the
number formatter of the host (`fmt`), a string is returned as it is, a boolean prints
as by `toString`. -/
def toLocaleString (fmt : Int → String) : JSVal → String
  | num n => fmt n
  | v => v.toStr

end JSVal

/-! ## Network and page effects -/

/-- Parsed response envelope: `res.ok`, and the `status`, `message` and `data`
properties of the JSON body. `data = none` is a `data` that is not an array (absent or
`null`): reading `.length` or calling `.forEach` on it throws. -/
structure Response (α : Type) where
  ok : Bool
  status : JSVal
  message : JSVal
  data : Option (List α)
  deriving DecidableEq, Repr

/-- Outcome of `await fetch(...)` followed by `await res.json()`. -/
inductive Fetched (α : Type) where
  | rejected
  | resolved (r : Response α)
  deriving DecidableEq, Repr

/-- Customer creation payload, the object handed to `JSON.stringify`. -/
structure Payload where
  mikrotik_id : JSVal
  name : JSVal
  username : JSVal
  service_type : JSVal
  phone : JSVal
  email : JSVal
  pppoe_username : JSVal
  pppoe_password : JSVal
  pppoe_profile_id : JSVal
  deriving DecidableEq, Repr

/-- Observable action of a script. -/
inductive Effect where
  | request (method url : String)
  | postJson (url : String) (body : Payload)
  | consoleError (label : String)
  | alert (msg : String)
  | confirm (msg : String)
  | navigate (href : String)
  deriving DecidableEq, Repr

namespace Effect

/-- Holds of the effects that reach the network. -/
def isRequest : Effect → Bool
  | request _ _ => true
  | postJson _ _ => true
  | _ => false

/-- Holds of the blocking notifications. -/
def isAlert : Effect → Bool
  | alert _ => true
  | _ => false

/-- Holds of the confirmation prompts. -/
def isConfirm : Effect → Bool
  | confirm _ => true
  | _ => false

/-- Holds of the writes to the diagnostic console. -/
def isConsoleError : Effect → Bool
  | consoleError _ => true
  | _ => false

end Effect

/-! ## Server-owned records -/

/-- Router record of `GET /api/mikrotiks`. -/
structure Router where
  id : JSVal
  name : JSVal
  host : JSVal
  deriving DecidableEq, Repr

/-- Nested `pppoe` object of a profile. -/
structure Pppoe where
  remote_address : JSVal
  deriving DecidableEq, Repr

/-- Profile record of `GET /api/profiles`; `pppoe = none` is a missing or `null`
`pppoe` property. -/
structure Profile where
  id : JSVal
  name : JSVal
  profile_type : JSVal
  rate_limit_up : JSVal
  rate_limit_down : JSVal
  price : JSVal
  mikrotik_id : JSVal
  pppoe : Option Pppoe
  deriving DecidableEq, Repr

/-- One `option` element: its `value` and its `textContent`. -/
structure SelectOption where
  value : String
  text : String
  deriving DecidableEq, Repr

/-! ## customer-form.js -/

namespace CustomerForm

/-- The part of the Add Customer page the script touches. -/
structure Page where
  mikrotikSelect : List SelectOption
  profileSelect : List SelectOption
  trace : List Effect
  deriving DecidableEq, Repr

/-- The option built in the `forEach` body of `fetchMikrotiks`. -/
def routerOption (mk : Router) : SelectOption :=
  { value := mk.id.toStr
    text := mk.name.toStr ++ " (" ++ mk.host.toStr ++ ")" }

/-- Script function `fetchMikrotiks`. -/
def fetchMikrotiks (apiBase : String) (out : Fetched Router) (pg : Page) : Page :=
  let pg := { pg with trace := pg.trace ++ [Effect.request "GET" (apiBase ++ "/api/mikrotiks")] }
  match out with
  | .rejected =>
    { pg with trace := pg.trace ++ [Effect.consoleError "Failed to fetch mikrotiks:"] }
  | .resolved result =>
    if result.status = JSVal.str "success" then
      let pg := { pg with mikrotikSelect := [{ value := "", text := "Select Router" }] }
      match result.data with
      | none =>
        { pg with trace := pg.trace ++ [Effect.consoleError "Failed to fetch mikrotiks:"] }
      | some data =>
        { pg with
          mikrotikSelect :=
            data.foldl (fun sel mk => sel ++ [routerOption mk]) pg.mikrotikSelect }
    else
      pg

/-- The label built in the `forEach` body of `fetchProfiles`. -/
def profileLabel (profile : Profile) : String :=
  profile.name.toStr ++ " ("
    ++ (profile.rate_limit_up.or (JSVal.str "Unlim")).toStr ++ "/"
    ++ (profile.rate_limit_down.or (JSVal.str "Unlim")).toStr ++ ")"

/-- The option built in the `forEach` body of `fetchProfiles`. -/
def profileOption (profile : Profile) : SelectOption :=
  { value := profile.id.toStr
    text := profileLabel profile }

/-- Script function `fetchProfiles(mikrotikId)`; the argument is the `value` of the
router dropdown, a string. -/
def fetchProfiles (apiBase : String) (mikrotikId : String) (out : Fetched Profile)
    (pg : Page) : Page :=
  if !(JSVal.str mikrotikId).truthy then
    { pg with profileSelect := [{ value := "", text := "Select Profile" }] }
  else
    let pg := { pg with
      trace := pg.trace ++
        [Effect.request "GET"
          (apiBase ++ "/api/profiles?mikrotik_id=" ++ mikrotikId ++ "&limit=100")] }
    match out with
    | .rejected =>
      { pg with trace := pg.trace ++ [Effect.consoleError "Failed to fetch profiles:"] }
    | .resolved result =>
      if result.status = JSVal.str "success" then
        let pg := { pg with profileSelect := [{ value := "", text := "Select Profile" }] }
        match result.data with
        | none =>
          { pg with trace := pg.trace ++ [Effect.consoleError "Failed to fetch profiles:"] }
        | some data =>
          { pg with
            profileSelect :=
              data.foldl
                (fun sel profile =>
                  if profile.profile_type = JSVal.str "pppoe" then
                    sel ++ [profileOption profile]
                  else sel)
                pg.profileSelect }
      else
        pg

/-- The expression `Object.fromEntries(formData.entries())` read at one key: the form
entries are name/value pairs of strings, the last entry of a name wins, and a name with
no entry reads as `undefined`. -/
def formField (entries : List (String × String)) (key : String) : JSVal :=
  match entries.reverse.find? (fun e => e.1 == key) with
  | some e => JSVal.str e.2
  | none => JSVal.undefined

/-- The object `payload` of the submit listener. -/
def buildPayload (entries : List (String × String)) : Payload :=
  let data := formField entries
  { mikrotik_id := data "mikrotik_id"
    name := data "name"
    username := data "username"
    service_type := data "service_type"
    phone := (data "phone").or JSVal.null
    email := (data "email").or JSVal.null
    pppoe_username := (data "pppoe_username").or JSVal.null
    pppoe_password := (data "pppoe_password").or JSVal.null
    pppoe_profile_id := (data "pppoe_profile_id").or JSVal.null }

/-- The submit listener of the form, after `e.preventDefault()`. -/
def submit (apiBase : String) (entries : List (String × String)) (out : Fetched Unit)
    (pg : Page) : Page :=
  let payload := buildPayload entries
  let pg := { pg with
    trace := pg.trace ++ [Effect.postJson (apiBase ++ "/api/customers") payload] }
  match out with
  | .rejected =>
    { pg with
      trace := pg.trace ++ [Effect.consoleError "", Effect.alert "Failed to submit form"] }
  | .resolved result =>
    if result.ok && result.status = JSVal.str "success" then
      { pg with
        trace := pg.trace ++
          [Effect.alert "Customer created successfully!", Effect.navigate "/"] }
    else
      { pg with
        trace := pg.trace ++
          [Effect.alert
            ("Error: " ++ (result.message.or (JSVal.str "Unknown error")).toStr)] }

end CustomerForm

/-! ## profiles.js -/

namespace Profiles

/-- Cell texts of a profile row of the table, left to right, and the argument of its
two action buttons. -/
structure ProfileRow where
  name : String
  mikrotik_id : String
  profile_type : String
  rateLimit : String
  remoteAddress : String
  price : String
  syncArg : String
  deleteArg : String
  deriving DecidableEq, Repr

/-- One `tr` of the table body: a single-cell notice row, a single-cell row in red, or
a profile row. -/
inductive Row where
  | notice (text : String)
  | error (text : String)
  | profile (cells : ProfileRow)
  deriving DecidableEq, Repr

/-- The part of the profiles page the script touches; `filterValue` is the `value` of
the router filter. -/
structure Page where
  tableBody : List Row
  filterValue : String
  trace : List Effect
  deriving DecidableEq, Repr

/-- The variable `rateLimit` of the `forEach` body of `renderTable`. -/
def rateLimitCell (profile : Profile) : String :=
  if (profile.rate_limit_up.or profile.rate_limit_down).truthy then
    (profile.rate_limit_up.or (JSVal.str "Unlim")).toStr ++ " / "
      ++ (profile.rate_limit_down.or (JSVal.str "Unlim")).toStr
  else
    "-"

/-- The expression `profile.pppoe?.remote_address`. -/
def remoteAddress (profile : Profile) : JSVal :=
  match profile.pppoe with
  | none => JSVal.undefined
  | some pppoe => pppoe.remote_address

/-- The price cell of `renderTable`; `fmt` is the number formatter of the host. -/
def priceCell (fmt : Int → String) (profile : Profile) : String :=
  "Rp " ++ (if profile.price.truthy then profile.price.toLocaleString fmt else "0")

/-- The row built in the `forEach` body of `renderTable`. -/
def profileRow (fmt : Int → String) (profile : Profile) : ProfileRow :=
  { name := profile.name.toStr
    mikrotik_id := profile.mikrotik_id.toStr
    profile_type := profile.profile_type.toStr
    rateLimit := rateLimitCell profile
    remoteAddress := ((remoteAddress profile).or (JSVal.str "-")).toStr
    price := priceCell fmt profile
    syncArg := profile.id.toStr
    deleteArg := profile.id.toStr }

/-- Script function `renderTable(profiles)`. -/
def renderTable (fmt : Int → String) (profiles : List Profile) (pg : Page) : Page :=
  if profiles.length = 0 then
    { pg with tableBody := [Row.notice "No profiles found."] }
  else
    let pg := { pg with tableBody := [] }
    { pg with
      tableBody :=
        profiles.foldl (fun body profile => body ++ [Row.profile (profileRow fmt profile)])
          pg.tableBody }

/-- Script function `fetchProfiles()` of the profiles page. -/
def fetchProfiles (apiBase : String) (fmt : Int → String) (out : Fetched Profile)
    (pg : Page) : Page :=
  let pg := { pg with tableBody := [Row.notice " Loading..."] }
  let url := apiBase ++ "/api/profiles?limit=100"
  let url :=
    if (JSVal.str pg.filterValue).truthy then url ++ "&mikrotik_id=" ++ pg.filterValue
    else url
  let pg := { pg with trace := pg.trace ++ [Effect.request "GET" url] }
  let caught : Page :=
    { pg with
      trace := pg.trace ++ [Effect.consoleError "Error fetching profiles:"]
      tableBody := [Row.error "Failed to load profiles"] }
  match out with
  | .rejected => caught
  | .resolved result =>
    if result.status = JSVal.str "success" then
      match result.data with
      | none => caught
      | some data => renderTable fmt data pg
    else
      { pg with tableBody := [Row.error ("Error: " ++ result.message.toStr)] }

/-- The click listener of the sync-all button. `confirmed` is what the confirmation
prompt answers, `syncOut` the outcome of the bulk-sync request, `listOut` the outcome
of the listing request of the reload. -/
def syncAllClick (apiBase : String) (fmt : Int → String) (confirmed : Bool)
    (syncOut : Fetched Unit) (listOut : Fetched Profile) (pg : Page) : Page :=
  let mikrotikId := pg.filterValue
  if !(JSVal.str mikrotikId).truthy then
    { pg with
      trace := pg.trace ++
        [Effect.alert "Please select a router first to sync all profiles."] }
  else
    let pg := { pg with
      trace := pg.trace ++
        [Effect.confirm
          "Sync ALL profiles from MikroTik? This might overwrite local changes."] }
    if !confirmed then pg
    else
      let pg := { pg with
        trace := pg.trace ++
          [Effect.request "POST" (apiBase ++ "/api/profiles/sync-all/" ++ mikrotikId)] }
      match syncOut with
      | .rejected => { pg with trace := pg.trace ++ [Effect.alert "Sync failed"] }
      | .resolved _ =>
        fetchProfiles apiBase fmt listOut
          { pg with trace := pg.trace ++ [Effect.alert "Sync started/completed."] }

end Profiles

/-! ## Host number formatting -/

/-- Separator insertion on the digits of a number, least significant digit first. -/
def groupRev (sep : Char) : List Char → List Char
  | a :: b :: c :: d :: rest => a :: b :: c :: sep :: groupRev sep (d :: rest)
  | digits => digits

/-- Modelled from the spec: the number formatter behind `Number.prototype.toLocaleString`
belongs to the host, not to the repository; the spec describes what it returns for a
price as a locale-grouped integer string. This is that formatter for a locale that
groups the decimal digits in threes with the separator `sep` (a comma for `en-US`). -/
def groupThousands (sep : Char) (n : Int) : String :=
  (if n < 0 then "-" else "")
    ++ String.mk (groupRev sep (Nat.toDigits 10 n.natAbs).reverse).reverse

/-- Separator insertion in twos on the digits of a number, least significant digit
first. -/
def groupPairsRev (sep : Char) : List Char → List Char
  | a :: b :: c :: rest => a :: b :: sep :: groupPairsRev sep (c :: rest)
  | digits => digits

/-- The number formatter of a host whose locale is `en-IN`: the last three digits form
a group, the digits in front of them are grouped in twos, the separator is a comma. -/
def groupLakh (n : Int) : String :=
  (if n < 0 then "-" else "")
    ++ String.mk
        (match (Nat.toDigits 10 n.natAbs).reverse with
          | a :: b :: c :: d :: rest => a :: b :: c :: ',' :: groupPairsRev ',' (d :: rest)
          | digits => digits).reverse

/-! ## Vocabulary of the specification -/

namespace Spec

/-- Absent value: the property is missing or `null`. -/
def absent (v : JSVal) : Bool :=
  decide (v = JSVal.undefined ∨ v = JSVal.null)

/-- Optional string of the data model: absent, or a string. -/
def optString (v : JSVal) : Prop :=
  v = JSVal.undefined ∨ v = JSVal.null ∨ ∃ s, v = JSVal.str s

/-- Blank form value: the field has no entry, or its value is the empty string. -/
def blank (v : JSVal) : Prop :=
  v = JSVal.undefined ∨ v = JSVal.str ""

/-- One side of a rate-limit pair as the specification words it: the rate string when
present, `Unlim` when absent. -/
def rateOrUnlim (v : JSVal) : String :=
  if absent v then "Unlim" else v.toStr

/-- The rate-limit cell as the specification words it. -/
def rateLimitCell (profile : Profile) : String :=
  if absent profile.rate_limit_up && absent profile.rate_limit_down then "-"
  else rateOrUnlim profile.rate_limit_up ++ " / " ++ rateOrUnlim profile.rate_limit_down

/-- The label of a profile option as the specification words it. -/
def profileLabel (profile : Profile) : String :=
  profile.name.toStr ++ " (" ++ rateOrUnlim profile.rate_limit_up ++ "/"
    ++ rateOrUnlim profile.rate_limit_down ++ ")"

/-- No rate given: the value is absent, or it is the empty string. -/
def noRate (v : JSVal) : Bool :=
  absent v || decide (v = JSVal.str "")

/-- One side of a rate-limit pair with the empty string counted as no rate. -/
def rateOrUnlimNonEmpty (v : JSVal) : String :=
  if noRate v then "Unlim" else v.toStr

/-- The sign in front of a printed integer. -/
def signChars (n : Int) : List Char :=
  if n < 0 then ['-'] else []

/-- The characters of a printed integer that follow its sign. -/
def bodyChars (n : Int) (s : String) : List Char :=
  s.toList.drop (signChars n).length

/-- Locale-grouped integer string, digits grouped in threes by the separator `sep`:
`s` is the sign of `n` followed by a body; the body without its separators is the
decimal digits of the magnitude of `n`; the body starts with the leading digit; and,
counted from the least significant end, the separators of the body sit exactly at the
positions 3, 7, 11, ... -/
def groupedInThrees (sep : Char) (n : Int) (s : String) : Prop :=
  s.toList.take (signChars n).length = signChars n
    ∧ (bodyChars n s).filter (fun c => c != sep) = Nat.toDigits 10 n.natAbs
    ∧ (bodyChars n s).head? = (Nat.toDigits 10 n.natAbs).head?
    ∧ ∀ j, j < (bodyChars n s).length →
        ((bodyChars n s).reverse[j]? = some sep ↔ j % 4 = 3)

/-- Failed listing: the request or the parse threw, or the status is not `success`. -/
def failed {α : Type} (out : Fetched α) : Prop :=
  out = Fetched.rejected ∨ ∃ r, out = Fetched.resolved r ∧ r.status ≠ JSVal.str "success"

/-- The optional fields of the customer payload, each with the form field it is read
from. -/
def optionalFields : List (String × (Payload → JSVal)) :=
  [("phone", Payload.phone), ("email", Payload.email),
   ("pppoe_username", Payload.pppoe_username), ("pppoe_password", Payload.pppoe_password),
   ("pppoe_profile_id", Payload.pppoe_profile_id)]

/-- The fields of the customer payload that are copied from the form. -/
def copiedFields : List (String × (Payload → JSVal)) :=
  [("mikrotik_id", Payload.mikrotik_id), ("name", Payload.name),
   ("username", Payload.username), ("service_type", Payload.service_type)]

end Spec

/-! ## Sample inputs -/

/-- The profile of the scenario of the specification: `rate_limit_down` is `null`, the
properties the scenario leaves out are missing. -/
def basicProfile : Profile :=
  { id := JSVal.str "p1", name := JSVal.str "Basic", profile_type := JSVal.str "pppoe"
    rate_limit_up := JSVal.str "1M", rate_limit_down := JSVal.null
    price := JSVal.undefined, mikrotik_id := JSVal.undefined, pppoe := none }

/-- A hotspot profile with both rates and a price. -/
def hotspotProfile : Profile :=
  { id := JSVal.str "h7", name := JSVal.str "Voucher", profile_type := JSVal.str "hotspot"
    rate_limit_up := JSVal.str "2M", rate_limit_down := JSVal.str "5M"
    price := JSVal.num 150000, mikrotik_id := JSVal.num 5, pppoe := none }

/-- A pppoe profile whose upload rate is the empty string. -/
def emptyUpProfile : Profile :=
  { id := JSVal.str "p2", name := JSVal.str "Basic", profile_type := JSVal.str "pppoe"
    rate_limit_up := JSVal.str "", rate_limit_down := JSVal.str "1M"
    price := JSVal.num 0, mikrotik_id := JSVal.num 5
    pppoe := some { remote_address := JSVal.str "10.0.0.1" } }

/-- A pppoe profile whose price is sent as a string. -/
def stringPriceProfile : Profile :=
  { id := JSVal.str "p3", name := JSVal.str "Gold", profile_type := JSVal.str "pppoe"
    rate_limit_up := JSVal.str "10M", rate_limit_down := JSVal.str "10M"
    price := JSVal.str "150000", mikrotik_id := JSVal.num 5, pppoe := none }

/-- A pppoe profile with a seven-digit price. -/
def sevenDigitProfile : Profile :=
  { id := JSVal.str "p4", name := JSVal.str "Dedicated", profile_type := JSVal.str "pppoe"
    rate_limit_up := JSVal.str "50M", rate_limit_down := JSVal.str "50M"
    price := JSVal.num 1234567, mikrotik_id := JSVal.num 5, pppoe := none }

/-- A router record. -/
def officeRouter : Router :=
  { id := JSVal.num 5, name := JSVal.str "Office", host := JSVal.str "10.0.0.1" }

/-- A successful listing response carrying `data`. -/
def successOf {α : Type} (data : List α) : Response α :=
  { ok := true, status := JSVal.str "success", message := JSVal.undefined, data := some data }

/-- An error response without a `message`. -/
def errorNoMessage {α : Type} : Response α :=
  { ok := false, status := JSVal.str "error", message := JSVal.undefined, data := none }

/-- An error response with a `message`. -/
def errorWithMessage {α : Type} : Response α :=
  { ok := false, status := JSVal.str "error", message := JSVal.str "database unavailable"
    data := none }

/-- A customer form page whose dropdowns already hold options. -/
def usedFormPage : CustomerForm.Page :=
  { mikrotikSelect := [{ value := "", text := "Select Router" },
                       { value := "9", text := "Old (10.9.9.9)" }]
    profileSelect := [{ value := "zz", text := "Stale (1M/1M)" }]
    trace := [] }

/-- A profiles page with no router selected in the filter. -/
def unfilteredPage : Profiles.Page :=
  { tableBody := [Profiles.Row.notice "No profiles found."], filterValue := "", trace := [] }

/-- Form entries with every optional field left empty except the e-mail address. -/
def sampleEntries : List (String × String) :=
  [("mikrotik_id", "5"), ("name", "Budi"), ("username", "budi"), ("service_type", "pppoe"),
   ("phone", ""), ("email", "budi@example.net"), ("pppoe_username", ""),
   ("pppoe_password", ""), ("pppoe_profile_id", "")]

/-! ## Lemmas on the loops -/

theorem foldl_append_map {α β : Type} (f : α → β) (l : List α) (init : List β) :
    l.foldl (fun acc x => acc ++ [f x]) init = init ++ l.map f := by
  induction l generalizing init with
  | nil => simp
  | cons x xs ih => simp [ih]

theorem foldl_append_filter_map {α β : Type} (f : α → β) (q : α → Prop) [DecidablePred q]
    (l : List α) (init : List β) :
    l.foldl (fun acc x => if q x then acc ++ [f x] else acc) init
      = init ++ (l.filter (fun x => decide (q x))).map f := by
  induction l generalizing init with
  | nil => simp
  | cons x xs ih =>
    by_cases hq : q x
    · simp [ih, hq]
    · simp [ih, hq]

/-! ## customer-form.js: the dropdowns -/

/-- C1: when the profile listing for a non-empty router id answers with status
`success` and a list, `fetchProfiles` leaves the profile dropdown holding the
`Select Profile` placeholder followed by one option per profile whose `profile_type`
is `pppoe` (value the profile id, in the order of the list), and nothing else, whatever
the dropdown held before. -/
theorem fetchProfiles_dropdown_pppoe_only (apiBase mikrotikId : String)
    (r : Response Profile) (data : List Profile) (pg : CustomerForm.Page)
    (hid : mikrotikId ≠ "") (hstatus : r.status = JSVal.str "success")
    (hdata : r.data = some data) :
    (CustomerForm.fetchProfiles apiBase mikrotikId (Fetched.resolved r) pg).profileSelect
      = { value := "", text := "Select Profile" }
        :: (data.filter (fun p => decide (p.profile_type = JSVal.str "pppoe"))).map
            (fun p => { value := p.id.toStr, text := CustomerForm.profileLabel p }) := by
  have h := foldl_append_filter_map CustomerForm.profileOption
    (fun p : Profile => p.profile_type = JSVal.str "pppoe") data
    [{ value := "", text := "Select Profile" }]
  simp only [CustomerForm.fetchProfiles, JSVal.truthy, hstatus, hdata]
  simp [hid]
  rw [h]
  rfl

theorem fetchProfiles_dropdown_pppoe_only_witness :
    "5" ≠ "" ∧ (successOf [basicProfile, hotspotProfile]).status = JSVal.str "success"
      ∧ (successOf [basicProfile, hotspotProfile]).data = some [basicProfile, hotspotProfile]
      ∧ (CustomerForm.fetchProfiles "" "5" (Fetched.resolved (successOf [basicProfile, hotspotProfile]))
          usedFormPage).profileSelect
        = [{ value := "", text := "Select Profile" }, { value := "p1", text := "Basic (1M/Unlim)" }] :=
  ⟨by decide, rfl, rfl,
    fetchProfiles_dropdown_pppoe_only "" "5" (successOf [basicProfile, hotspotProfile])
      [basicProfile, hotspotProfile] usedFormPage (by decide) rfl rfl⟩

/-- C6: when the router listing answers with status `success` and a list,
`fetchMikrotiks` leaves the router dropdown holding one `Select Router` placeholder
followed by one option per router (value the router id, label `name (host)`), in the
order of the list, whatever the dropdown held before. -/
theorem fetchMikrotiks_dropdown_replaced (apiBase : String) (r : Response Router)
    (data : List Router) (pg : CustomerForm.Page)
    (hstatus : r.status = JSVal.str "success") (hdata : r.data = some data) :
    (CustomerForm.fetchMikrotiks apiBase (Fetched.resolved r) pg).mikrotikSelect
      = { value := "", text := "Select Router" }
        :: data.map (fun mk =>
            { value := mk.id.toStr, text := mk.name.toStr ++ " (" ++ mk.host.toStr ++ ")" }) := by
  have h := foldl_append_map CustomerForm.routerOption data [{ value := "", text := "Select Router" }]
  simp only [CustomerForm.fetchMikrotiks, hstatus, hdata]
  simp
  rw [h]
  rfl

theorem fetchMikrotiks_dropdown_replaced_witness :
    (successOf [officeRouter]).status = JSVal.str "success"
      ∧ (successOf [officeRouter]).data = some [officeRouter]
      ∧ (CustomerForm.fetchMikrotiks "" (Fetched.resolved (successOf [officeRouter])) usedFormPage).mikrotikSelect
        = [{ value := "", text := "Select Router" }, { value := "5", text := "Office (10.0.0.1)" }] :=
  ⟨rfl, rfl,
    fetchMikrotiks_dropdown_replaced "" (successOf [officeRouter]) [officeRouter] usedFormPage
      rfl rfl⟩

theorem or_unlim_of_optString (v : JSVal) (hv : Spec.optString v) :
    (v.or (JSVal.str "Unlim")).toStr = Spec.rateOrUnlimNonEmpty v := by
  rcases hv with rfl | rfl | ⟨s, rfl⟩
  · rfl
  · rfl
  · by_cases hs : s = ""
    · subst hs
      rfl
    · simp [JSVal.or, JSVal.truthy, Spec.rateOrUnlimNonEmpty, Spec.noRate, Spec.absent, hs,
        JSVal.toStr]

/-- C5, with the empty string counted as no rate: the upload rate of `emptyUpProfile`
is the empty string, a rate string that is present, so the label as claimed is
`Basic (/1M)`; the option `fetchProfiles` builds is labelled `Basic (Unlim/1M)`. -/
theorem profile_label_empty_rate_counterexample :
    (CustomerForm.fetchProfiles "" "5" (Fetched.resolved (successOf [emptyUpProfile])) usedFormPage).profileSelect
        = [{ value := "", text := "Select Profile" }, { value := "p2", text := "Basic (Unlim/1M)" }]
      ∧ Spec.profileLabel emptyUpProfile = "Basic (/1M)"
      ∧ CustomerForm.profileLabel emptyUpProfile ≠ Spec.profileLabel emptyUpProfile := by
  decide

/-- C5 as amended: for a listing with status `success` for a non-empty router id whose
profiles carry rate limits that are absent or strings, every pppoe profile gets the
option whose value is the profile id and whose label is
name + ` (` + up + `/` + down + `)`, where a side is the rate string when it is a
non-empty string and `Unlim` when it is absent or the empty string; the scenario of
the specification yields the placeholder and the one option `Basic (1M/Unlim)` with
value `p1`. -/
theorem profile_option_label (apiBase mikrotikId : String) (r : Response Profile)
    (data : List Profile) (pg : CustomerForm.Page)
    (hid : mikrotikId ≠ "") (hstatus : r.status = JSVal.str "success")
    (hdata : r.data = some data)
    (hrates : ∀ p ∈ data, Spec.optString p.rate_limit_up ∧ Spec.optString p.rate_limit_down) :
    (CustomerForm.fetchProfiles apiBase mikrotikId (Fetched.resolved r) pg).profileSelect
        = { value := "", text := "Select Profile" }
          :: (data.filter (fun p => decide (p.profile_type = JSVal.str "pppoe"))).map
              (fun p =>
                { value := p.id.toStr
                  text := p.name.toStr ++ " (" ++ Spec.rateOrUnlimNonEmpty p.rate_limit_up
                    ++ "/" ++ Spec.rateOrUnlimNonEmpty p.rate_limit_down ++ ")" })
      ∧ (CustomerForm.fetchProfiles apiBase "5" (Fetched.resolved (successOf [basicProfile])) pg).profileSelect
        = [{ value := "", text := "Select Profile" },
           { value := "p1", text := "Basic (1M/Unlim)" }] := by
  constructor
  · have h := foldl_append_filter_map CustomerForm.profileOption
      (fun p : Profile => p.profile_type = JSVal.str "pppoe") data
      [{ value := "", text := "Select Profile" }]
    simp only [CustomerForm.fetchProfiles, JSVal.truthy, hstatus, hdata]
    simp [hid]
    rw [h]
    simp only [List.singleton_append, List.cons.injEq, true_and]
    apply List.map_congr_left
    intro p hp
    have hp' : p ∈ data := (List.mem_filter.mp hp).1
    simp only [CustomerForm.profileOption, CustomerForm.profileLabel,
      or_unlim_of_optString _ (hrates p hp').1, or_unlim_of_optString _ (hrates p hp').2]
  · rfl

theorem profile_option_label_witness :
    "5" ≠ "" ∧ (successOf [emptyUpProfile, hotspotProfile]).status = JSVal.str "success"
      ∧ (successOf [emptyUpProfile, hotspotProfile]).data = some [emptyUpProfile, hotspotProfile]
      ∧ (∀ p ∈ [emptyUpProfile, hotspotProfile],
          Spec.optString p.rate_limit_up ∧ Spec.optString p.rate_limit_down)
      ∧ (CustomerForm.fetchProfiles "" "5" (Fetched.resolved (successOf [emptyUpProfile, hotspotProfile]))
          usedFormPage).profileSelect
        = [{ value := "", text := "Select Profile" },
           { value := "p2", text := "Basic (Unlim/1M)" }] :=
  have hrates : ∀ p ∈ [emptyUpProfile, hotspotProfile],
      Spec.optString p.rate_limit_up ∧ Spec.optString p.rate_limit_down := by
    intro p hp
    simp only [List.mem_cons, List.mem_singleton, List.not_mem_nil, or_false] at hp
    rcases hp with rfl | rfl
    · exact ⟨Or.inr (Or.inr ⟨"", rfl⟩), Or.inr (Or.inr ⟨"1M", rfl⟩)⟩
    · exact ⟨Or.inr (Or.inr ⟨"2M", rfl⟩), Or.inr (Or.inr ⟨"5M", rfl⟩)⟩
  ⟨by decide, rfl, rfl, hrates,
    (profile_option_label "" "5" (successOf [emptyUpProfile, hotspotProfile])
      [emptyUpProfile, hotspotProfile] usedFormPage (by decide) rfl rfl hrates).1⟩

/-! ## customer-form.js: failures of the router listing -/

/-- C9 as claimed fails on a response whose status is not `success`: the listing
failed, yet the only effect of `fetchMikrotiks` is the request itself, and nothing is
written to the diagnostic console. -/
theorem fetchMikrotiks_error_status_counterexample :
    Spec.failed (Fetched.resolved (errorWithMessage : Response Router))
      ∧ (CustomerForm.fetchMikrotiks "" (Fetched.resolved errorWithMessage) usedFormPage).trace
        = [Effect.request "GET" "/api/mikrotiks"]
      ∧ (CustomerForm.fetchMikrotiks "" (Fetched.resolved errorWithMessage) usedFormPage).trace.filter
          Effect.isConsoleError = [] := by
  refine ⟨Or.inr ⟨errorWithMessage, rfl, by decide⟩, by decide, by decide⟩

/-- C9 as amended: for every failure of `fetchMikrotiks` (the request or the parse
threw, or the status of the response is not `success`) the two dropdowns are left as
they were and no alert is raised; a thrown error is reported to the diagnostic console,
and a response whose status is not `success` is reported nowhere. -/
theorem fetchMikrotiks_failure_keeps_dropdown (apiBase : String) (out : Fetched Router)
    (pg : CustomerForm.Page) (hfail : Spec.failed out) :
    (CustomerForm.fetchMikrotiks apiBase out pg).mikrotikSelect = pg.mikrotikSelect
      ∧ (CustomerForm.fetchMikrotiks apiBase out pg).profileSelect = pg.profileSelect
      ∧ (CustomerForm.fetchMikrotiks apiBase out pg).trace.filter Effect.isAlert
          = pg.trace.filter Effect.isAlert
      ∧ (out = Fetched.rejected →
          (CustomerForm.fetchMikrotiks apiBase out pg).trace
            = pg.trace ++ [Effect.request "GET" (apiBase ++ "/api/mikrotiks"),
                           Effect.consoleError "Failed to fetch mikrotiks:"])
      ∧ (∀ r, out = Fetched.resolved r →
          (CustomerForm.fetchMikrotiks apiBase out pg).trace
            = pg.trace ++ [Effect.request "GET" (apiBase ++ "/api/mikrotiks")]) := by
  rcases hfail with rfl | ⟨r, rfl, hr⟩
  · simp [CustomerForm.fetchMikrotiks, Effect.isAlert]
  · simp [CustomerForm.fetchMikrotiks, hr, Effect.isAlert]

theorem fetchMikrotiks_failure_keeps_dropdown_witness :
    Spec.failed (Fetched.rejected : Fetched Router)
      ∧ (CustomerForm.fetchMikrotiks "" Fetched.rejected usedFormPage).mikrotikSelect
          = usedFormPage.mikrotikSelect
      ∧ (CustomerForm.fetchMikrotiks "" Fetched.rejected usedFormPage).trace
          = [Effect.request "GET" "/api/mikrotiks",
             Effect.consoleError "Failed to fetch mikrotiks:"] :=
  ⟨Or.inl rfl,
    (fetchMikrotiks_failure_keeps_dropdown "" Fetched.rejected usedFormPage (Or.inl rfl)).1,
    (fetchMikrotiks_failure_keeps_dropdown "" Fetched.rejected usedFormPage
      (Or.inl rfl)).2.2.2.1 rfl⟩

/-! ## customer-form.js: the payload -/

theorem formField_cases (entries : List (String × String)) (key : String) :
    CustomerForm.formField entries key = JSVal.undefined
      ∨ ∃ s, CustomerForm.formField entries key = JSVal.str s := by
  unfold CustomerForm.formField
  cases entries.reverse.find? (fun e => e.1 == key) with
  | none => exact Or.inl rfl
  | some e => exact Or.inr ⟨e.2, rfl⟩

theorem or_null_of_form_value (v : JSVal) (hv : v = JSVal.undefined ∨ ∃ s, v = JSVal.str s) :
    (Spec.blank v → v.or JSVal.null = JSVal.null)
      ∧ (∀ s, v = JSVal.str s → s ≠ "" → v.or JSVal.null = JSVal.str s)
      ∧ v.or JSVal.null ≠ JSVal.str "" := by
  rcases hv with rfl | ⟨s, rfl⟩
  · simp [JSVal.or, JSVal.truthy]
  · by_cases hs : s = ""
    · subst hs
      simp [JSVal.or, JSVal.truthy]
    · simp [JSVal.or, JSVal.truthy, Spec.blank, hs]

/-- C2: for every list of form entries, each of `phone`, `email`, `pppoe_username`,
`pppoe_password` and `pppoe_profile_id` of the payload is `null` when the form value is
blank (no entry, or the empty string), is the form value when that is a non-empty
string, and is never the empty string; `mikrotik_id`, `name`, `username` and
`service_type` are the form values unchanged. -/
theorem buildPayload_blank_to_null (entries : List (String × String)) :
    (∀ kf ∈ Spec.optionalFields,
        (Spec.blank (CustomerForm.formField entries kf.1) → kf.2 (CustomerForm.buildPayload entries) = JSVal.null)
          ∧ (∀ s, CustomerForm.formField entries kf.1 = JSVal.str s → s ≠ "" →
              kf.2 (CustomerForm.buildPayload entries) = JSVal.str s)
          ∧ kf.2 (CustomerForm.buildPayload entries) ≠ JSVal.str "")
      ∧ (∀ kf ∈ Spec.copiedFields, kf.2 (CustomerForm.buildPayload entries) = CustomerForm.formField entries kf.1) := by
  constructor
  · intro kf hkf
    simp only [Spec.optionalFields, List.mem_cons, List.mem_singleton, List.not_mem_nil,
      or_false] at hkf
    rcases hkf with rfl | rfl | rfl | rfl | rfl <;>
      exact or_null_of_form_value _ (formField_cases entries _)
  · intro kf hkf
    simp only [Spec.copiedFields, List.mem_cons, List.mem_singleton, List.not_mem_nil,
      or_false] at hkf
    rcases hkf with rfl | rfl | rfl | rfl <;> rfl

/-! ## profiles.js: the table -/

theorem renderTable_cons (fmt : Int → String) (p : Profile) (ps : List Profile)
    (pg : Profiles.Page) :
    (Profiles.renderTable fmt (p :: ps) pg).tableBody
      = (p :: ps).map (fun q => Profiles.Row.profile (Profiles.profileRow fmt q)) := by
  have h := foldl_append_map (fun q => Profiles.Row.profile (Profiles.profileRow fmt q))
    (p :: ps) []
  simp only [Profiles.renderTable, List.length_cons, Nat.succ_ne_zero, if_false]
  rw [h]
  rfl

theorem renderTable_getElem? (fmt : Int → String) (ps : List Profile) (pg : Profiles.Page)
    (i : Nat) (p : Profile) (hi : ps[i]? = some p) :
    (Profiles.renderTable fmt ps pg).tableBody[i]?
      = some (Profiles.Row.profile (Profiles.profileRow fmt p)) := by
  cases ps with
  | nil => simp at hi
  | cons q qs =>
    rw [renderTable_cons, List.getElem?_map, hi]
    rfl

/-- C7: `renderTable` leaves the table body with the one row `No profiles found.` for
the empty list, and for a non-empty list with one profile row per profile, in the order
of the list and whatever the `profile_type`, whatever the table held before. -/
theorem renderTable_one_row_per_profile (fmt : Int → String) (pg : Profiles.Page) :
    (Profiles.renderTable fmt [] pg).tableBody = [Profiles.Row.notice "No profiles found."]
      ∧ ∀ (p : Profile) (ps : List Profile),
          (Profiles.renderTable fmt (p :: ps) pg).tableBody
              = (p :: ps).map (fun q => Profiles.Row.profile (Profiles.profileRow fmt q))
            ∧ (Profiles.renderTable fmt (p :: ps) pg).tableBody.length = (p :: ps).length := by
  refine ⟨rfl, fun p ps => ⟨renderTable_cons fmt p ps pg, ?_⟩⟩
  rw [renderTable_cons, List.length_map]

theorem truthy_of_optString (v : JSVal) (hv : Spec.optString v) :
    v.truthy = !Spec.noRate v := by
  rcases hv with rfl | rfl | ⟨s, rfl⟩
  · rfl
  · rfl
  · by_cases hs : s = ""
    · subst hs
      rfl
    · simp [JSVal.truthy, Spec.noRate, Spec.absent, hs]

theorem rateLimitCell_of_optString (p : Profile) (hup : Spec.optString p.rate_limit_up)
    (hdown : Spec.optString p.rate_limit_down) :
    Profiles.rateLimitCell p
      = if Spec.noRate p.rate_limit_up && Spec.noRate p.rate_limit_down then "-"
        else Spec.rateOrUnlimNonEmpty p.rate_limit_up ++ " / "
          ++ Spec.rateOrUnlimNonEmpty p.rate_limit_down := by
  have hu := truthy_of_optString _ hup
  have hd := truthy_of_optString _ hdown
  unfold Profiles.rateLimitCell
  rw [or_unlim_of_optString _ hup, or_unlim_of_optString _ hdown]
  unfold JSVal.or
  cases h1 : Spec.noRate p.rate_limit_up <;> cases h2 : Spec.noRate p.rate_limit_down <;>
    simp [h1, h2, hu, hd]

/-- C3, with the empty string counted as no rate: the upload rate of `emptyUpProfile`
is the empty string, a rate string that is present, so the cell as claimed is ` / 1M`;
the cell `renderTable` builds is `Unlim / 1M`. -/
theorem rateLimit_cell_empty_rate_counterexample :
    (Profiles.renderTable (groupThousands ',') [emptyUpProfile] unfilteredPage).tableBody
        = [Profiles.Row.profile
            { name := "Basic", mikrotik_id := "5", profile_type := "pppoe"
              rateLimit := "Unlim / 1M", remoteAddress := "10.0.0.1", price := "Rp 0"
              syncArg := "p2", deleteArg := "p2" }]
      ∧ Spec.rateLimitCell emptyUpProfile = " / 1M"
      ∧ Profiles.rateLimitCell emptyUpProfile ≠ Spec.rateLimitCell emptyUpProfile := by
  decide

/-- C3 as amended: for every profile of the list given to `renderTable` whose rate
limits are absent or strings, the rate-limit cell of its row is `-` when both rates are
absent or the empty string, and otherwise `up / down`, where a side is the rate string
when it is a non-empty string and `Unlim` when it is absent or the empty string. -/
theorem rateLimit_cell_nonempty_or_unlim (fmt : Int → String) (ps : List Profile)
    (pg : Profiles.Page) (i : Nat) (p : Profile) (hi : ps[i]? = some p)
    (hup : Spec.optString p.rate_limit_up) (hdown : Spec.optString p.rate_limit_down) :
    ∃ cells, (Profiles.renderTable fmt ps pg).tableBody[i]? = some (Profiles.Row.profile cells)
      ∧ cells.rateLimit
        = if Spec.noRate p.rate_limit_up && Spec.noRate p.rate_limit_down then "-"
          else Spec.rateOrUnlimNonEmpty p.rate_limit_up ++ " / "
            ++ Spec.rateOrUnlimNonEmpty p.rate_limit_down :=
  ⟨Profiles.profileRow fmt p, renderTable_getElem? fmt ps pg i p hi,
    rateLimitCell_of_optString p hup hdown⟩

theorem rateLimit_cell_nonempty_or_unlim_witness :
    [hotspotProfile, basicProfile][1]? = some basicProfile
      ∧ Spec.optString basicProfile.rate_limit_up
      ∧ Spec.optString basicProfile.rate_limit_down
      ∧ ∃ cells,
          (Profiles.renderTable (groupThousands ',') [hotspotProfile, basicProfile]
            unfilteredPage).tableBody[1]? = some (Profiles.Row.profile cells)
          ∧ cells.rateLimit = "1M / Unlim" :=
  ⟨rfl, Or.inr (Or.inr ⟨"1M", rfl⟩), Or.inr (Or.inl rfl),
    rateLimit_cell_nonempty_or_unlim (groupThousands ',') [hotspotProfile, basicProfile]
      unfilteredPage 1 basicProfile rfl (Or.inr (Or.inr ⟨"1M", rfl⟩)) (Or.inr (Or.inl rfl))⟩

/-! ## The grouping of the number formatter -/

/-- Grouping only inserts separators: dropping them gives back the digits. -/
theorem groupRev_filter (sep : Char) (ds : List Char) (h : sep ∉ ds) :
    (groupRev sep ds).filter (fun c => c != sep) = ds := by
  induction ds using groupRev.induct sep with
  | case1 a b c d rest ih =>
    simp only [List.mem_cons, not_or] at h
    obtain ⟨ha, hb, hc, hd, hr⟩ := h
    have ih' := ih (by simp [List.mem_cons, hd, hr])
    rw [groupRev]
    simp [List.filter_cons, Ne.symm ha, Ne.symm hb, Ne.symm hc, ih']
  | case2 ds hne =>
    rw [groupRev]
    · rw [List.filter_eq_self]
      intro c hc
      simp
      rintro rfl
      exact h hc
    · exact hne

/-- Grouping is in threes: counted from the least significant digit, the separators of
the grouped digits sit exactly at the positions 3, 7, 11, ... -/
theorem groupRev_sep_iff (sep : Char) (ds : List Char) (h : sep ∉ ds) (j : Nat)
    (hj : j < (groupRev sep ds).length) :
    (groupRev sep ds)[j]? = some sep ↔ j % 4 = 3 := by
  induction ds using groupRev.induct sep generalizing j with
  | case1 a b c d rest ih =>
    simp only [List.mem_cons, not_or] at h
    obtain ⟨ha, hb, hc, hd, hr⟩ := h
    rw [groupRev] at hj ⊢
    match j with
    | 0 => simp [Ne.symm ha]
    | 1 => simp [Ne.symm hb]
    | 2 => simp [Ne.symm hc]
    | 3 => simp
    | k + 4 =>
      simp only [List.length_cons] at hj
      have := ih (by simp [List.mem_cons, hd, hr]) k (by omega)
      simp only [List.getElem?_cons_succ]
      rw [this]
      omega
  | case2 ds hne =>
    rw [groupRev] at hj ⊢
    · have hlen : ds.length ≤ 3 := by
        match ds, hne with
        | [], _ => simp
        | [_], _ => simp
        | [_, _], _ => simp
        | [_, _, _], _ => simp
        | a :: b :: c :: d :: rest, hne => exact absurd rfl (hne a b c d rest)
      have hj3 : j % 4 = j := Nat.mod_eq_of_lt (by omega)
      rw [hj3]
      constructor
      · intro hs
        exact absurd (List.getElem?_mem hs) h
      · intro h3
        omega
    · exact hne
    · exact hne

theorem groupRev_getLast? (sep : Char) (ds : List Char) :
    (groupRev sep ds).getLast? = ds.getLast? := by
  induction ds using groupRev.induct sep with
  | case1 a b c d rest ih =>
    rw [groupRev]
    have hne : groupRev sep (d :: rest) ≠ [] := by
      intro h
      have := congrArg List.getLast? h
      rw [ih] at this
      simp at this
    obtain ⟨x, xs, hx⟩ := List.exists_cons_of_ne_nil hne
    rw [hx] at ih ⊢
    simp only [List.getLast?_cons_cons]
    exact ih
  | case2 ds hne =>
    rw [groupRev]
    exact hne

theorem digitChar_isDigit (k : Nat) (hk : k < 10) : (Nat.digitChar k).isDigit = true := by
  interval_cases k <;> decide

theorem toDigitsCore_isDigit (fuel : Nat) : ∀ (n : Nat) (ds : List Char),
    (∀ c ∈ ds, c.isDigit = true) → ∀ c ∈ Nat.toDigitsCore 10 fuel n ds, c.isDigit = true := by
  induction fuel with
  | zero =>
    intro n ds h
    simpa [Nat.toDigitsCore] using h
  | succ f ih =>
    intro n ds h
    have hd : ∀ c ∈ Nat.digitChar (n % 10) :: ds, c.isDigit = true := by
      intro c hc
      rcases List.mem_cons.mp hc with rfl | hc
      · exact digitChar_isDigit _ (Nat.mod_lt _ (by decide))
      · exact h c hc
    unfold Nat.toDigitsCore
    by_cases h0 : n / 10 = 0
    · simpa [h0] using hd
    · simp only [h0, if_false]
      exact ih _ _ hd

theorem toDigits_isDigit (m : Nat) : ∀ c ∈ Nat.toDigits 10 m, c.isDigit = true :=
  toDigitsCore_isDigit _ _ _ (by simp)

/-- The model of a host that groups in threes does so: for a separator that is not a
digit, what `groupThousands` prints is the digits grouped in threes. -/
theorem groupThousands_groupedInThrees (sep : Char) (hsep : sep.isDigit = false) (n : Int) :
    Spec.groupedInThrees sep n (groupThousands sep n) := by
  have hmem : sep ∉ (Nat.toDigits 10 n.natAbs).reverse := by
    intro h
    have := toDigits_isDigit n.natAbs sep (List.mem_reverse.mp h)
    rw [hsep] at this
    exact Bool.noConfusion this
  have hbody : Spec.bodyChars n (groupThousands sep n)
      = (groupRev sep (Nat.toDigits 10 n.natAbs).reverse).reverse := by
    unfold Spec.bodyChars Spec.signChars groupThousands
    by_cases hn : n < 0 <;> simp [hn, String.toList]
  have hsign : (groupThousands sep n).toList.take (Spec.signChars n).length
      = Spec.signChars n := by
    unfold Spec.signChars groupThousands
    by_cases hn : n < 0 <;> simp [hn, String.toList]
  refine ⟨hsign, ?_, ?_, ?_⟩
  · rw [hbody, List.filter_reverse, groupRev_filter sep _ hmem, List.reverse_reverse]
  · rw [hbody, List.head?_reverse, groupRev_getLast?, List.getLast?_reverse]
  · intro j hj
    rw [hbody] at hj ⊢
    rw [List.reverse_reverse]
    rw [List.length_reverse] at hj
    exact groupRev_sep_iff sep _ hmem j hj

/-- C4 as claimed fails in two ways. A price sent as the string `150000` is printed as
it is, `Rp 150000`, which is not that price grouped in threes by any separator. On a
host whose locale is `en-IN` the price 1234567 is printed `Rp 12,34,567`, which is not
grouped in threes either. -/
theorem price_cell_ungrouped_counterexample :
    (Profiles.renderTable (groupThousands ',') [stringPriceProfile] unfilteredPage).tableBody
        = [Profiles.Row.profile
            { name := "Gold", mikrotik_id := "5", profile_type := "pppoe"
              rateLimit := "10M / 10M", remoteAddress := "-", price := "Rp 150000"
              syncArg := "p3", deleteArg := "p3" }]
      ∧ (∀ sep, ¬ Spec.groupedInThrees sep 150000 "150000")
      ∧ (Profiles.renderTable groupLakh [sevenDigitProfile] unfilteredPage).tableBody
        = [Profiles.Row.profile
            { name := "Dedicated", mikrotik_id := "5", profile_type := "pppoe"
              rateLimit := "50M / 50M", remoteAddress := "-", price := "Rp 12,34,567"
              syncArg := "p4", deleteArg := "p4" }]
      ∧ (∀ sep, ¬ Spec.groupedInThrees sep 1234567 "12,34,567") := by
  refine ⟨by decide, ?_, by decide, ?_⟩
  · rintro sep ⟨_, _, _, hpos⟩
    have h3 : some '0' = some sep := (hpos 3 (by decide)).mpr rfl
    have h0 : ¬ (some '0' = some sep) := fun h => absurd ((hpos 0 (by decide)).mp h) (by decide)
    exact h0 h3
  · rintro sep ⟨_, _, _, hpos⟩
    have h3 : some ',' = some sep := (hpos 3 (by decide)).mpr rfl
    have h7 : some '2' = some sep := (hpos 7 (by decide)).mpr rfl
    rw [← h3] at h7
    exact absurd h7 (by decide)

/-- C4 as amended: for every profile of the list given to `renderTable`, the price cell
of its row is `Rp 0` when the price is absent or zero; when the price is a non-zero
integer number it is `Rp ` followed by what the number formatter of the host prints for
it, and on a host whose formatter groups digits in threes that is the price as a
locale-grouped integer string, digits grouped in threes. -/
theorem price_cell_grouped_in_threes (fmt : Int → String) (sep : Char) (ps : List Profile)
    (pg : Profiles.Page) (i : Nat) (p : Profile) (hi : ps[i]? = some p)
    (hfmt : ∀ n, Spec.groupedInThrees sep n (fmt n)) :
    ∃ cells, (Profiles.renderTable fmt ps pg).tableBody[i]? = some (Profiles.Row.profile cells)
      ∧ (Spec.absent p.price = true ∨ p.price = JSVal.num 0 → cells.price = "Rp 0")
      ∧ (∀ n, p.price = JSVal.num n → n ≠ 0 →
          cells.price = "Rp " ++ fmt n ∧ Spec.groupedInThrees sep n (fmt n)) := by
  refine ⟨Profiles.profileRow fmt p, renderTable_getElem? fmt ps pg i p hi, ?_, ?_⟩
  · intro h
    rcases h with h | h
    · have h' : p.price = JSVal.undefined ∨ p.price = JSVal.null := by
        simpa [Spec.absent] using h
      rcases h' with h' | h' <;> simp [Profiles.profileRow, Profiles.priceCell, h', JSVal.truthy]
    · simp [Profiles.profileRow, Profiles.priceCell, h, JSVal.truthy]
  · intro n hn hne
    refine ⟨?_, hfmt n⟩
    simp [Profiles.profileRow, Profiles.priceCell, hn, JSVal.truthy, hne, JSVal.toLocaleString]

theorem price_cell_grouped_in_threes_witness :
    [hotspotProfile, basicProfile][0]? = some hotspotProfile
      ∧ (∀ n, Spec.groupedInThrees ',' n (groupThousands ',' n))
      ∧ ∃ cells,
          (Profiles.renderTable (groupThousands ',') [hotspotProfile, basicProfile]
            unfilteredPage).tableBody[0]? = some (Profiles.Row.profile cells)
          ∧ cells.price = "Rp 150,000"
          ∧ Spec.groupedInThrees ',' 150000 "150,000" := by
  obtain ⟨cells, hrow, _, hnum⟩ :=
    price_cell_grouped_in_threes (groupThousands ',') ',' [hotspotProfile, basicProfile]
      unfilteredPage 0 hotspotProfile rfl (groupThousands_groupedInThrees ',' (by decide))
  exact ⟨rfl, groupThousands_groupedInThrees ',' (by decide), cells, hrow,
    (hnum 150000 rfl (by decide)).1, (hnum 150000 rfl (by decide)).2⟩

/-- C8 at a response whose status is not `success` and that carries no `message`: the
table body of `fetchProfiles` is the one error row, and its text is `Error: undefined`,
not a generic failure message. -/
theorem fetchProfiles_error_row_without_message :
    (Profiles.fetchProfiles "" (groupThousands ',') (Fetched.resolved errorNoMessage)
      unfilteredPage).tableBody = [Profiles.Row.error "Error: undefined"] := by
  decide

/-- C10: when the click listener of the sync-all button runs while the value of the
router filter is empty, the page changes by exactly one alert: no request is issued, no
confirmation prompt is shown, and the table body is left as it was, whatever the
prompt or the network would have answered. -/
theorem syncAllClick_without_router (apiBase : String) (fmt : Int → String)
    (confirmed : Bool) (syncOut : Fetched Unit) (listOut : Fetched Profile)
    (pg : Profiles.Page) (hfilter : pg.filterValue = "") :
    (Profiles.syncAllClick apiBase fmt confirmed syncOut listOut pg).trace
        = pg.trace ++ [Effect.alert "Please select a router first to sync all profiles."]
      ∧ (Profiles.syncAllClick apiBase fmt confirmed syncOut listOut pg).tableBody = pg.tableBody
      ∧ (Profiles.syncAllClick apiBase fmt confirmed syncOut listOut pg).trace.countP Effect.isRequest
          = pg.trace.countP Effect.isRequest
      ∧ (Profiles.syncAllClick apiBase fmt confirmed syncOut listOut pg).trace.countP Effect.isConfirm
          = pg.trace.countP Effect.isConfirm
      ∧ (Profiles.syncAllClick apiBase fmt confirmed syncOut listOut pg).trace.countP Effect.isAlert
          = pg.trace.countP Effect.isAlert + 1 := by
  simp [Profiles.syncAllClick, hfilter, JSVal.truthy, Effect.isRequest, Effect.isConfirm,
    Effect.isAlert, List.countP_append]

theorem syncAllClick_without_router_witness :
    unfilteredPage.filterValue = ""
      ∧ (Profiles.syncAllClick "" (groupThousands ',') true (Fetched.resolved (successOf []))
          (Fetched.resolved (successOf [basicProfile])) unfilteredPage).trace
        = [Effect.alert "Please select a router first to sync all profiles."] :=
  ⟨rfl,
    (syncAllClick_without_router "" (groupThousands ',') true (Fetched.resolved (successOf []))
      (Fetched.resolved (successOf [basicProfile])) unfilteredPage rfl).1⟩

end Mikrobill
